import Mathlib

/-!
Verification of the `glimpse` LED-browsing utility (`src/main.rs`).

The development shallowly embeds the program's data model and operations:

* the device scanner (`LED::new`, `get_all_leds`), with the filesystem
  modelled as the observations the program can make of it (the result of
  reading the root directory, and per device-name the result of reading the
  device directory and its `brightness` file);
* the application state (`App`) and its operations (`App::new`,
  `App::on_key_event`, `App::run`), with the terminal event stream modelled
  as a list of events, and the `ratatui` `ListState` selection operations
  (`select_next`, `select_previous`, and the clamping that list rendering
  performs) modelled from that library's semantics.

Machine integers (`u8`, `usize`) are modelled as `Nat` with explicit bounds.
-/

namespace Glimpse

/-- The subset of `std::io::ErrorKind` the program distinguishes:
`LED::new` pattern-matches on `ErrorKind::NotFound` and lumps every other
kind together. -/
inductive ErrKind where
  | notFound
  | otherKind
deriving DecidableEq, Repr

/-- A `std::io::Error`: its kind plus the message its `Display`
implementation produces (used by `format!` in `App::new`). -/
structure IoError where
  kind : ErrKind
  msg : String
deriving DecidableEq, Repr

/-- Decidable equality for `Except`, used to evaluate scanner results on
concrete filesystems. -/
def exceptDecEq {ε α : Type} [DecidableEq ε] [DecidableEq α] :
    (a b : Except ε α) → Decidable (a = b)
  | .error a, .error b =>
    if h : a = b then .isTrue (by rw [h])
    else .isFalse (by intro hc; cases hc; exact h rfl)
  | .error _, .ok _ => .isFalse (by intro h; cases h)
  | .ok _, .error _ => .isFalse (by intro h; cases h)
  | .ok a, .ok b =>
    if h : a = b then .isTrue (by rw [h])
    else .isFalse (by intro hc; cases hc; exact h rfl)

instance {ε α : Type} [DecidableEq ε] [DecidableEq α] :
    DecidableEq (Except ε α) := exceptDecEq

/-- The `NewLEDError` enum of `src/main.rs`. -/
inductive NewLEDError where
  | NotFound
  | InvalidBrightness
  | InvalidFileName
  | IOErr (e : IoError)
deriving DecidableEq, Repr

/-- The `Display` strings from the `thiserror` attributes on `NewLEDError`
("LED does not exist", "Invalid brightness value", "Invalid encoding in
file name", "I/O error: {0}"). -/
def NewLEDError.toMessage : NewLEDError → String
  | .NotFound => "LED does not exist"
  | .InvalidBrightness => "Invalid brightness value"
  | .InvalidFileName => "Invalid encoding in file name"
  | .IOErr e => "I/O error: " ++ e.msg

/-- Rust's `char::is_whitespace`: the Unicode `White_Space` property. -/
def isRustWhitespace (c : Char) : Bool :=
  c.toNat = 0x09 ∨ c.toNat = 0x0A ∨ c.toNat = 0x0B ∨ c.toNat = 0x0C ∨
  c.toNat = 0x0D ∨ c.toNat = 0x20 ∨ c.toNat = 0x85 ∨ c.toNat = 0xA0 ∨
  c.toNat = 0x1680 ∨ (0x2000 ≤ c.toNat ∧ c.toNat ≤ 0x200A) ∨
  c.toNat = 0x2028 ∨ c.toNat = 0x2029 ∨ c.toNat = 0x202F ∨
  c.toNat = 0x205F ∨ c.toNat = 0x3000

/-- Rust's `str::trim`: strip leading and trailing whitespace characters. -/
def rustTrim (s : String) : String :=
  String.mk (((s.toList.dropWhile isRustWhitespace).reverse.dropWhile
    isRustWhitespace).reverse)

/-- Rust's `u8::from_str` (radix 10): an optional leading `+` followed by
one or more ASCII digits, whose value fits in 8 bits. Returns the parsed
value, or `none` on any parse or overflow error. -/
def parseU8 (s : String) : Option Nat :=
  let digits := match s.toList with
    | '+' :: rest => rest
    | cs => cs
  if digits = [] then none
  else if digits.all Char.isDigit then
    let n := digits.foldl (fun acc c => acc * 10 + (c.toNat - 0x30)) 0
    if n ≤ 255 then some n else none
  else none

/-- Rust's `"...".replace("::", " ")` on the character list: replace each
non-overlapping occurrence of `::`, scanning left to right, by one space.
This is the only `replace` call the program makes. -/
def replaceColons : List Char → List Char
  | ':' :: ':' :: rest => ' ' :: replaceColons rest
  | c :: rest => c :: replaceColons rest
  | [] => []

/-- `file_name.replace("::", " ")` as a `String` operation. -/
def rustReplaceSep (s : String) : String :=
  String.mk (replaceColons s.toList)

/-- The `LED` struct: raw directory name, display name, and on/off state. -/
structure LED where
  file_name : String
  name : String
  is_on : Bool
deriving DecidableEq, Repr

/-- The observations `LED::new` can make of one device directory
`/sys/class/leds/<name>`: the result of `fs::read_dir` on the directory and
the result of `fs::read_to_string` on its `brightness` file. -/
structure DeviceData where
  readDirRes : Except IoError Unit
  brightness : Except IoError String
deriving DecidableEq

/-- The observations the scanner can make of the filesystem: the result of
`fs::read_dir("/sys/class/leds")` — each iterator item is a
`Result<DirEntry>` whose file name may fail UTF-8 decoding (`none`) — and,
per device name, the data `LED::new` reads at that path. -/
structure Root where
  rootDir : Except IoError (List (Except IoError (Option String)))
  device : String → DeviceData

/-- `LED::new` from `src/main.rs`: check the device directory is readable
(classifying `NotFound` apart from other I/O errors), read `brightness`,
trim and parse it as a `u8` (failure is `InvalidBrightness`), and build the
record with `name` = `file_name` with every `"::"` replaced by `" "` and
`is_on` = brightness > 0. -/
def LED.new (fs : Root) (file_name : String) : Except NewLEDError LED :=
  match (fs.device file_name).readDirRes with
  | .error e =>
    .error (match e.kind with
      | .notFound => NewLEDError.NotFound
      | _ => NewLEDError.IOErr e)
  | .ok _ =>
    match (fs.device file_name).brightness with
    | .error e => .error (NewLEDError.IOErr e)
    | .ok brightness_data =>
      match parseU8 (rustTrim brightness_data) with
      | none => .error NewLEDError.InvalidBrightness
      | some brightness =>
        .ok { name := rustReplaceSep file_name
              file_name := file_name
              is_on := decide (brightness > 0) }

/-- One iteration of the `get_all_leds` loop body: unwrap the directory
entry (`?` on the iterator item), decode its file name (`InvalidFileName`
on failure), then `LED::new`. -/
def entryLED (fs : Root) (entry : Except IoError (Option String)) :
    Except NewLEDError LED :=
  match entry with
  | .error e => .error (NewLEDError.IOErr e)
  | .ok none => .error NewLEDError.InvalidFileName
  | .ok (some file_name) => LED.new fs file_name

/-- The `get_all_leds` loop over the root directory's entries: push each
constructed LED, aborting on the first error. -/
def getLedsList (fs : Root) : List (Except IoError (Option String)) →
    Except NewLEDError (List LED)
  | [] => .ok []
  | entry :: rest =>
    match entryLED fs entry with
    | .error e => .error e
    | .ok led =>
      match getLedsList fs rest with
      | .error e => .error e
      | .ok leds => .ok (led :: leds)

/-- `get_all_leds` from `src/main.rs`: read the root directory (any error,
including `NotFound`, becomes `IOError`), then construct one LED per entry,
aborting on the first failure. -/
def get_all_leds (fs : Root) : Except NewLEDError (List LED) :=
  match fs.rootDir with
  | .error e => .error (NewLEDError.IOErr e)
  | .ok directories => getLedsList fs directories

/-- The `Pane` enum; `Sidebar` is the `#[default]` variant. -/
inductive Pane where
  | Sidebar
  | Mainbar
deriving DecidableEq, Repr

/-- `usize::MAX` on the reference 64-bit platform. -/
def USIZE_MAX : Nat := 2 ^ 64 - 1

/-- `ratatui`'s `ListState`, reduced to its `selected` field (the `offset`
field only controls scrolling during rendering and carries no
selection-relevant state). `default()` leaves `selected = None`. -/
structure ListState where
  selected : Option Nat
deriving DecidableEq, Repr

/-- `ListState::default()`: nothing selected. -/
def ListState.default : ListState := { selected := none }

/-- `ratatui` `ListState::select_next`: saturating increment, or select
index 0 when nothing is selected. -/
def ListState.select_next (s : ListState) : ListState :=
  { selected := some (match s.selected with
      | none => 0
      | some i => min (i + 1) USIZE_MAX) }

/-- `ratatui` `ListState::select_previous`: saturating decrement, or select
`usize::MAX` when nothing is selected (rendering clamps it to the last
item). -/
def ListState.select_previous (s : ListState) : ListState :=
  { selected := some (match s.selected with
      | none => USIZE_MAX
      | some i => i - 1) }

/-- The clamping that `ratatui`'s `List` rendering performs on the state
(for a non-empty render area): with no items the selection is cleared,
otherwise an out-of-bounds selected index is clamped to the last item. -/
def ListState.renderClamp (s : ListState) (len : Nat) : ListState :=
  if len = 0 then { selected := none }
  else { selected := s.selected.map (fun i => min i (len - 1)) }

/-- The crossterm `KeyModifiers` bitflags. -/
structure KeyModifiers where
  shift : Bool
  control : Bool
  alt : Bool
  superMod : Bool
  hyperMod : Bool
  metaMod : Bool
deriving DecidableEq, Repr

/-- `KeyModifiers::CONTROL`: exactly the control bit. -/
def KeyModifiers.CONTROL : KeyModifiers :=
  { shift := false, control := true, alt := false,
    superMod := false, hyperMod := false, metaMod := false }

/-- `KeyModifiers::NONE`. -/
def KeyModifiers.NONE : KeyModifiers :=
  { shift := false, control := false, alt := false,
    superMod := false, hyperMod := false, metaMod := false }

/-- The crossterm `KeyCode` variants the program matches on, with all
remaining variants collapsed into `other`. -/
inductive KeyCode where
  | Esc
  | Char (c : Char)
  | Up
  | Down
  | other
deriving DecidableEq, Repr

/-- A crossterm key event (the `kind` field is handled by the event model
below: only press events reach `on_key_event`). -/
structure KeyEvent where
  modifiers : KeyModifiers
  code : KeyCode
deriving DecidableEq, Repr

/-- A crossterm terminal event: a key event tagged with whether it is a
press (`handle_crossterm_events` forwards only presses), or a mouse,
resize, or other event, all ignored. -/
inductive Event where
  | Key (key : KeyEvent) (isPress : Bool)
  | Mouse
  | Resize
  | otherEvent
deriving DecidableEq, Repr

/-- The `App` struct: running flag, discovered LEDs, append-only log,
focused pane, and the sidebar list's selection state. -/
structure App where
  running : Bool
  leds : List LED
  log : List String
  focused_pane : Pane
  led_list_state : ListState
deriving DecidableEq, Repr

/-- `App::new`: run the scan once; on success log
"Successfully found N LED(s)" and keep the records, on failure log the
error and continue with an empty list. `running` starts `false` (it is set
by `run`), the focused pane is the default `Sidebar`, and the list state is
`default` (nothing selected). -/
def App.new (fs : Root) : App :=
  match get_all_leds fs with
  | .ok leds =>
    { running := false
      leds := leds
      log := ["Successfully found " ++ toString leds.length ++ " LED(s)"]
      focused_pane := Pane.Sidebar
      led_list_state := ListState.default }
  | .error e =>
    { running := false
      leds := []
      log := ["Error getting LEDs: " ++ e.toMessage]
      focused_pane := Pane.Sidebar
      led_list_state := ListState.default }

/-- Is this key event matched by the quit arm of `on_key_event`:
`(_, Esc | Char('q')) | (CONTROL, Char('c') | Char('C'))`? -/
def isQuitKey (key : KeyEvent) : Bool :=
  key.code = KeyCode.Esc ∨ key.code = KeyCode.Char 'q' ∨
  (key.modifiers = KeyModifiers.CONTROL ∧
    (key.code = KeyCode.Char 'c' ∨ key.code = KeyCode.Char 'C'))

/-- `App::on_key_event`: quit keys set `running := false`; Up/Down move the
selection when the sidebar is focused; everything else is a no-op. The
match arms are tried in source order. -/
def App.on_key_event (app : App) (key : KeyEvent) : App :=
  if isQuitKey key then { app with running := false }
  else if key.code = KeyCode.Up ∧ app.focused_pane = Pane.Sidebar then
    { app with led_list_state := app.led_list_state.select_previous }
  else if key.code = KeyCode.Down ∧ app.focused_pane = Pane.Sidebar then
    { app with led_list_state := app.led_list_state.select_next }
  else app

/-- `App::handle_crossterm_events` applied to one event: key-press events
go to `on_key_event`; key releases, mouse, resize and other events are
ignored. -/
def App.handle_event (app : App) : Event → App
  | Event.Key key true => app.on_key_event key
  | _ => app

/-- The state mutation `App::render` performs: rendering the stateful LED
list clamps `led_list_state` to the number of items (the log paragraph and
titles are pure presentation). -/
def App.render (app : App) : App :=
  { app with led_list_state := app.led_list_state.renderClamp app.leds.length }

/-- The body of `App::run`'s `while self.running` loop, driven by a finite
list of incoming terminal events: each iteration first renders (clamping
the list state), then blocks for one event and handles it. Returns the
state when the loop stops or the event list is exhausted. -/
def App.runLoop (app : App) : List Event → App
  | [] => app
  | e :: es =>
    if app.running then App.runLoop ((app.render).handle_event e) es
    else app

/-- `App::run`: set `running := true`, loop until `running` is false, then
append the final "Exiting Glimpse" log line and return the log. `none`
models a run still blocked waiting for input after the given events. -/
def App.run (app : App) (events : List Event) : Option (List String) :=
  if (App.runLoop { app with running := true } events).running then none
  else some ((App.runLoop { app with running := true } events).log
    ++ ["Exiting Glimpse"])

/-- The lines `main` prints to standard output (after `ratatui::restore()`)
when `run` returns its log. -/
def mainPrintedLines (logs : List String) : List String :=
  "Printing Glimpse log output..." :: logs

/-! ### Concrete filesystems for evaluating the definitions -/

/-- Device data for a path that does not exist. -/
def absentDevice : DeviceData :=
  { readDirRes := .error { kind := ErrKind.notFound
                           msg := "No such file or directory (os error 2)" }
    brightness := .error { kind := ErrKind.notFound
                           msg := "No such file or directory (os error 2)" } }

/-- A healthy device directory with the given brightness file content. -/
def okDevice (content : String) : DeviceData :=
  { readDirRes := .ok (), brightness := .ok content }

/-- The spec's end-to-end root: devices `alpha::on` (brightness "5") and
`beta::off` (brightness "0"). -/
def fsDemo : Root :=
  { rootDir := .ok [.ok (some "alpha::on"), .ok (some "beta::off")]
    device := fun name =>
      if name = "alpha::on" then okDevice "5\n"
      else if name = "beta::off" then okDevice "0\n"
      else absentDevice }

/-- A root whose device-class directory does not exist. -/
def fsNoRoot : Root :=
  { rootDir := .error { kind := ErrKind.notFound
                        msg := "No such file or directory (os error 2)" }
    device := fun _ => absentDevice }

/-- A root with one healthy device followed by a device whose brightness
file holds non-numeric text. -/
def fsBadBrightness : Root :=
  { rootDir := .ok [.ok (some "good::led"), .ok (some "bad::led")]
    device := fun name =>
      if name = "good::led" then okDevice "1\n"
      else if name = "bad::led" then okDevice "banana\n"
      else absentDevice }

/-- A root with one healthy device followed by a device whose directory
vanished between enumeration and construction. -/
def fsVanishedDevice : Root :=
  { rootDir := .ok [.ok (some "good::led"), .ok (some "gone::led")]
    device := fun name =>
      if name = "good::led" then okDevice "1\n"
      else absentDevice }

/-! ### Preservation lemmas for the application loop -/

/-- `on_key_event` never touches the LED list, the log, or the focused
pane. -/
theorem on_key_event_fields (a : App) (k : KeyEvent) :
    (a.on_key_event k).leds = a.leds ∧ (a.on_key_event k).log = a.log ∧
    (a.on_key_event k).focused_pane = a.focused_pane := by
  unfold App.on_key_event
  split
  · exact ⟨rfl, rfl, rfl⟩
  split
  · exact ⟨rfl, rfl, rfl⟩
  split
  · exact ⟨rfl, rfl, rfl⟩
  · exact ⟨rfl, rfl, rfl⟩

/-- Handling any terminal event never touches the LED list, the log, or
the focused pane. -/
theorem handle_event_fields (a : App) (e : Event) :
    (a.handle_event e).leds = a.leds ∧ (a.handle_event e).log = a.log ∧
    (a.handle_event e).focused_pane = a.focused_pane := by
  cases e with
  | Key k p =>
    cases p
    · exact ⟨rfl, rfl, rfl⟩
    · exact on_key_event_fields a k
  | Mouse => exact ⟨rfl, rfl, rfl⟩
  | Resize => exact ⟨rfl, rfl, rfl⟩
  | otherEvent => exact ⟨rfl, rfl, rfl⟩

/-- The whole event loop never touches the LED list, the log, or the
focused pane: they are fixed at `App::new` time. -/
theorem runLoop_fields (es : List Event) : ∀ a : App,
    (App.runLoop a es).leds = a.leds ∧ (App.runLoop a es).log = a.log ∧
    (App.runLoop a es).focused_pane = a.focused_pane := by
  induction es with
  | nil => intro a; exact ⟨rfl, rfl, rfl⟩
  | cons e es ih =>
    intro a
    unfold App.runLoop
    split
    · have h1 := ih ((a.render).handle_event e)
      have h2 := handle_event_fields a.render e
      exact ⟨h1.1.trans h2.1, h1.2.1.trans h2.2.1, h1.2.2.trans h2.2.2⟩
    · exact ⟨rfl, rfl, rfl⟩

/-- A non-quit key never changes the running flag. -/
theorem on_key_event_running (a : App) (k : KeyEvent) (h : isQuitKey k = false) :
    (a.on_key_event k).running = a.running := by
  unfold App.on_key_event
  rw [h]
  simp only [Bool.false_eq_true, if_false]
  split
  · rfl
  split
  · rfl
  · rfl

/-- With the sidebar focused, an Up key press (any modifiers) moves the
selection with `select_previous`. -/
theorem on_key_event_up (a : App) (m : KeyModifiers)
    (h : a.focused_pane = Pane.Sidebar) :
    (a.on_key_event { modifiers := m, code := KeyCode.Up }).led_list_state =
      a.led_list_state.select_previous := by
  unfold App.on_key_event
  have hq : isQuitKey { modifiers := m, code := KeyCode.Up } = false := by
    simp [isQuitKey]
  rw [hq]
  simp [h]

/-- With the sidebar focused, a Down key press (any modifiers) moves the
selection with `select_next`. -/
theorem on_key_event_down (a : App) (m : KeyModifiers)
    (h : a.focused_pane = Pane.Sidebar) :
    (a.on_key_event { modifiers := m, code := KeyCode.Down }).led_list_state =
      a.led_list_state.select_next := by
  unfold App.on_key_event
  have hq : isQuitKey { modifiers := m, code := KeyCode.Down } = false := by
    simp [isQuitKey]
  rw [hq]
  simp [h]

/-- C6: from any running application state, a key press sets `running` to
`false` exactly when the key is escape, the character `q`, or control
combined with `c`/`C`; no other key event causes the Running → Stopped
transition. -/
theorem quit_keys_exactly (app : App) (key : KeyEvent)
    (h : app.running = true) :
    (app.on_key_event key).running = false ↔
      (key.code = KeyCode.Esc ∨ key.code = KeyCode.Char 'q' ∨
        (key.modifiers = KeyModifiers.CONTROL ∧
          (key.code = KeyCode.Char 'c' ∨ key.code = KeyCode.Char 'C'))) := by
  constructor
  · intro hfalse
    by_cases hq : isQuitKey key = true
    · simpa [isQuitKey] using hq
    · exfalso
      have hq' : isQuitKey key = false := by
        simpa using hq
      rw [on_key_event_running app key hq', h] at hfalse
      cases hfalse
  · intro hprop
    have hq : isQuitKey key = true := by
      simp only [isQuitKey, decide_eq_true_eq]
      exact hprop
    unfold App.on_key_event
    rw [hq]
    rfl

/-- C6 witness: pressing escape in a concrete running application stops
it. -/
theorem quit_keys_exactly_witness :
    (({ App.new fsDemo with running := true } : App).on_key_event
      { modifiers := KeyModifiers.NONE, code := KeyCode.Esc }).running
        = false :=
  (quit_keys_exactly { App.new fsDemo with running := true }
    { modifiers := KeyModifiers.NONE, code := KeyCode.Esc } rfl).mpr
    (Or.inl rfl)

/-- C10: the focused pane is `Sidebar` initially, no event handling ever
changes it (so `Mainbar` is unreachable), and therefore in every reachable
state an Up/Down key press operates on the device-list selection. -/
theorem sidebar_always_focused (fs : Root) (events : List Event)
    (m : KeyModifiers) :
    (App.new fs).focused_pane = Pane.Sidebar ∧
    (∀ (a : App) (e : Event),
      (a.handle_event e).focused_pane = a.focused_pane) ∧
    (App.runLoop { App.new fs with running := true } events).focused_pane
        = Pane.Sidebar ∧
    ((App.runLoop { App.new fs with running := true } events).on_key_event
        { modifiers := m, code := KeyCode.Up }).led_list_state =
      (App.runLoop { App.new fs with running := true }
        events).led_list_state.select_previous ∧
    ((App.runLoop { App.new fs with running := true } events).on_key_event
        { modifiers := m, code := KeyCode.Down }).led_list_state =
      (App.runLoop { App.new fs with running := true }
        events).led_list_state.select_next := by
  have hnew : (App.new fs).focused_pane = Pane.Sidebar := by
    unfold App.new
    split <;> rfl
  have hloop : (App.runLoop { App.new fs with running := true }
      events).focused_pane = Pane.Sidebar :=
    ((runLoop_fields events _).2.2).trans hnew
  exact ⟨hnew, fun a e => (handle_event_fields a e).2.2, hloop,
    on_key_event_up _ m hloop, on_key_event_down _ m hloop⟩

/-- C9: whenever the loop reaches the stopped state, `run` returns the
accumulated log with exactly one final "Exiting Glimpse" line appended
after all previously accumulated lines (the loop itself never modifies the
log, so the log is append-only throughout the run), and `main` prints those
lines in order. -/
theorem run_exit_contract (app : App) (events : List Event)
    (logs : List String) (h : App.run app events = some logs) :
    logs = app.log ++ ["Exiting Glimpse"] ∧
    mainPrintedLines logs =
      "Printing Glimpse log output..." :: (app.log ++ ["Exiting Glimpse"]) := by
  unfold App.run at h
  split at h
  · cases h
  · have hlog : (App.runLoop { app with running := true } events).log
        = app.log :=
      (runLoop_fields events { app with running := true }).2.1
    have hl : logs = app.log ++ ["Exiting Glimpse"] := by
      cases h
      rw [hlog]
    exact ⟨hl, by rw [hl]; rfl⟩


/-- C9 witness: quitting the demo application yields the scan log followed
by the exit line. -/
theorem run_exit_contract_witness :
    (["Successfully found 2 LED(s)", "Exiting Glimpse"] : List String)
      = (App.new fsDemo).log ++ ["Exiting Glimpse"] :=
  (run_exit_contract (App.new fsDemo)
    [Event.Key { modifiers := KeyModifiers.NONE, code := KeyCode.Char 'q' }
      true]
    ["Successfully found 2 LED(s)", "Exiting Glimpse"] rfl).1

/-- C5: `App::new` never aborts on a scan error — it logs exactly one
human-readable line and continues with an empty device list; on success it
logs one "Successfully found N LED(s)" line and stores the N records. -/
theorem scan_errors_degrade (fs : Root) :
    (∀ e, get_all_leds fs = .error e →
      App.new fs =
        { running := false, leds := [],
          log := ["Error getting LEDs: " ++ e.toMessage],
          focused_pane := Pane.Sidebar,
          led_list_state := ListState.default }) ∧
    (∀ leds, get_all_leds fs = .ok leds →
      App.new fs =
        { running := false, leds := leds,
          log := ["Successfully found " ++ toString leds.length ++ " LED(s)"],
          focused_pane := Pane.Sidebar,
          led_list_state := ListState.default }) := by
  constructor
  · intro e he
    unfold App.new
    rw [he]
  · intro leds hl
    unfold App.new
    rw [hl]

/-- C5 witness: with a missing root directory the application starts with
zero devices and the single error log line. -/
theorem scan_errors_degrade_witness :
    (App.new fsNoRoot).leds = [] ∧
    (App.new fsNoRoot).log =
      ["Error getting LEDs: I/O error: No such file or directory (os error 2)"] := by
  have h := (scan_errors_degrade fsNoRoot).1
    (NewLEDError.IOErr
      { kind := ErrKind.notFound
        msg := "No such file or directory (os error 2)" }) rfl
  rw [h]
  exact ⟨rfl, rfl⟩

/-! ### Scanner lemmas -/

/-- If every entry of a prefix constructs successfully and the next entry
fails with `err`, the scanner loop over `good ++ bad :: rest` returns
`err` (no partial results). -/
theorem getLedsList_first_error (fs : Root)
    (bad : Except IoError (Option String)) (err : NewLEDError)
    (rest : List (Except IoError (Option String)))
    (hbad : entryLED fs bad = .error err) :
    ∀ good : List (Except IoError (Option String)),
      (∀ e ∈ good, (entryLED fs e).isOk = true) →
      getLedsList fs (good ++ bad :: rest) = .error err := by
  intro good
  induction good with
  | nil =>
    intro _
    show getLedsList fs (bad :: rest) = .error err
    unfold getLedsList
    rw [hbad]
  | cons g gs ih =>
    intro hg
    have hok := hg g (List.mem_cons_self g gs)
    obtain ⟨led, hled⟩ : ∃ led, entryLED fs g = .ok led := by
      cases hv : entryLED fs g with
      | error e => rw [hv] at hok; cases hok
      | ok led => exact ⟨led, rfl⟩
    rw [List.cons_append]
    show getLedsList fs (g :: (gs ++ bad :: rest)) = .error err
    unfold getLedsList
    rw [hled, ih (fun e he => hg e (List.mem_cons_of_mem g he))]

/-- If every device in `devs` (a list of directory-name/brightness-content
pairs) is well formed — device directory readable, brightness file
readable, trimmed content parses as a `u8` — the scanner loop returns one
record per device, in order, with the derived display name and on/off
state. -/
theorem getLedsList_all_ok (fs : Root) :
    ∀ devs : List (String × String),
      (∀ d ∈ devs, fs.device d.1 = okDevice d.2) →
      (∀ d ∈ devs, (parseU8 (rustTrim d.2)).isSome = true) →
      getLedsList fs (devs.map fun d => .ok (some d.1)) =
        .ok (devs.map fun d =>
          { file_name := d.1
            name := rustReplaceSep d.1
            is_on := decide (0 < (parseU8 (rustTrim d.2)).getD 0) }) := by
  intro devs
  induction devs with
  | nil => intro _ _; rfl
  | cons d ds ih =>
    intro hdev hparse
    have hd := hdev d (List.mem_cons_self d ds)
    have hp := hparse d (List.mem_cons_self d ds)
    obtain ⟨b, hb⟩ : ∃ b, parseU8 (rustTrim d.2) = some b :=
      Option.isSome_iff_exists.mp hp
    have hnew : LED.new fs d.1 =
        .ok { file_name := d.1
              name := rustReplaceSep d.1
              is_on := decide (0 < (parseU8 (rustTrim d.2)).getD 0) } := by
      unfold LED.new
      simp only [hd, okDevice, hb, Option.getD_some]
    rw [List.map_cons, List.map_cons]
    unfold getLedsList
    simp only [entryLED, hnew,
      ih (fun x hx => hdev x (List.mem_cons_of_mem d hx))
        (fun x hx => hparse x (List.mem_cons_of_mem d hx))]

/-- C1: for any list of well-formed device directories under the root
(each readable, with a brightness file whose trimmed content parses as an
unsigned integer in [0,255]), `get_all_leds` returns exactly one record
per directory, in enumeration order, with `is_on` = (parsed brightness
> 0) and display name = directory name with every `::` replaced by one
space. -/
theorem scan_wellformed (fs : Root) (devs : List (String × String))
    (hroot : fs.rootDir = .ok (devs.map fun d => .ok (some d.1)))
    (hdev : ∀ d ∈ devs, fs.device d.1 = okDevice d.2)
    (hparse : ∀ d ∈ devs, (parseU8 (rustTrim d.2)).isSome = true) :
    get_all_leds fs = .ok (devs.map fun d =>
      { file_name := d.1
        name := rustReplaceSep d.1
        is_on := decide (0 < (parseU8 (rustTrim d.2)).getD 0) }) ∧
    (devs.map fun d =>
      ({ file_name := d.1
         name := rustReplaceSep d.1
         is_on := decide (0 < (parseU8 (rustTrim d.2)).getD 0) } : LED)).length
      = devs.length := by
  constructor
  · unfold get_all_leds
    rw [hroot]
    exact getLedsList_all_ok fs devs hdev hparse
  · exact List.length_map devs _

/-- C1 witness: the spec's end-to-end root yields the two records
"alpha on" (on) and "beta off" (off), in enumeration order. -/
theorem scan_wellformed_witness :
    get_all_leds fsDemo =
      .ok [{ file_name := "alpha::on", name := "alpha on", is_on := true },
           { file_name := "beta::off", name := "beta off", is_on := false }] := by
  have h := (scan_wellformed fsDemo
    [("alpha::on", "5\n"), ("beta::off", "0\n")] rfl (by decide)
    (by decide)).1
  rw [h]
  rfl

/-- C2: if some device entry fails to construct and all entries before it
succeed, the whole scan fails with that device's error and returns no
partial results. -/
theorem scan_aborts_on_first_failure (fs : Root)
    (good : List (Except IoError (Option String)))
    (bad : Except IoError (Option String))
    (rest : List (Except IoError (Option String))) (err : NewLEDError)
    (hroot : fs.rootDir = .ok (good ++ bad :: rest))
    (hgood : ∀ e ∈ good, (entryLED fs e).isOk = true)
    (hbad : entryLED fs bad = .error err) :
    get_all_leds fs = .error err := by
  unfold get_all_leds
  rw [hroot]
  exact getLedsList_first_error fs bad err rest hbad good hgood

/-- C2 witness: a root where the second device vanished fails the whole
scan with that device's `NotFound` error. -/
theorem scan_aborts_on_first_failure_witness :
    get_all_leds fsVanishedDevice = .error NewLEDError.NotFound :=
  scan_aborts_on_first_failure fsVanishedDevice [.ok (some "good::led")]
    (.ok (some "gone::led")) [] NewLEDError.NotFound rfl (by decide) rfl

/-- C3: a device whose brightness file content, after trimming, fails to
parse as a `u8` (non-numeric, or numeric but above 255) makes `LED::new`
fail with `InvalidBrightness`, and hence (when the devices before it are
fine) the entire scan fails with `InvalidBrightness`. -/
theorem invalid_brightness_fails_scan (fs : Root) (name content : String)
    (hdir : (fs.device name).readDirRes = .ok ())
    (hbr : (fs.device name).brightness = .ok content)
    (hparse : parseU8 (rustTrim content) = none)
    (good rest : List (Except IoError (Option String)))
    (hroot : fs.rootDir = .ok (good ++ .ok (some name) :: rest))
    (hgood : ∀ e ∈ good, (entryLED fs e).isOk = true) :
    LED.new fs name = .error NewLEDError.InvalidBrightness ∧
    get_all_leds fs = .error NewLEDError.InvalidBrightness := by
  have hnew : LED.new fs name = .error NewLEDError.InvalidBrightness := by
    unfold LED.new
    simp only [hdir, hbr, hparse]
  refine ⟨hnew, ?_⟩
  unfold get_all_leds
  rw [hroot]
  exact getLedsList_first_error fs (.ok (some name))
    NewLEDError.InvalidBrightness rest hnew good hgood

/-- C3 witness: a brightness file containing "banana" fails the scan with
`InvalidBrightness`. -/
theorem invalid_brightness_fails_scan_witness :
    get_all_leds fsBadBrightness = .error NewLEDError.InvalidBrightness :=
  (invalid_brightness_fails_scan fsBadBrightness "bad::led" "banana\n" rfl
    rfl rfl [.ok (some "good::led")] [] rfl (by decide)).2

/-- C4 counterexample: when the root device-class directory itself does
not exist, the scan fails with the catch-all `IOError` kind (wrapping the
not-found I/O error), not with the `NotFound` kind the claim states. -/
theorem root_missing_is_ioerror :
    get_all_leds fsNoRoot =
      .error (NewLEDError.IOErr
        { kind := ErrKind.notFound
          msg := "No such file or directory (os error 2)" }) ∧
    get_all_leds fsNoRoot ≠ .error NewLEDError.NotFound :=
  ⟨rfl, by decide⟩

/-- C4 (amended): a per-device directory that vanished or never existed
fails the scan with the `NotFound` kind, while a missing (or otherwise
unreadable) root directory fails the scan with the `IOError` kind wrapping
the underlying I/O error. -/
theorem notfound_classification (fs : Root) :
    (∀ (name : String) (good rest : List (Except IoError (Option String)))
        (e : IoError),
      fs.rootDir = .ok (good ++ .ok (some name) :: rest) →
      (∀ x ∈ good, (entryLED fs x).isOk = true) →
      (fs.device name).readDirRes = .error e → e.kind = ErrKind.notFound →
      get_all_leds fs = .error NewLEDError.NotFound) ∧
    (∀ e : IoError, fs.rootDir = .error e →
      get_all_leds fs = .error (NewLEDError.IOErr e)) := by
  constructor
  · intro name good rest e hroot hgood hdir hkind
    have hnew : LED.new fs name = .error NewLEDError.NotFound := by
      unfold LED.new
      simp only [hdir, hkind]
    unfold get_all_leds
    rw [hroot]
    exact getLedsList_first_error fs (.ok (some name)) NewLEDError.NotFound
      rest hnew good hgood
  · intro e hroot
    unfold get_all_leds
    rw [hroot]

/-- C4 (amended) witness: a vanished device directory gives `NotFound`; a
missing root gives `IOError`. -/
theorem notfound_classification_witness :
    get_all_leds fsVanishedDevice = .error NewLEDError.NotFound ∧
    get_all_leds fsNoRoot =
      .error (NewLEDError.IOErr
        { kind := ErrKind.notFound
          msg := "No such file or directory (os error 2)" }) :=
  ⟨(notfound_classification fsVanishedDevice).1 "gone::led"
      [.ok (some "good::led")] []
      { kind := ErrKind.notFound
        msg := "No such file or directory (os error 2)" }
      rfl (by decide) rfl rfl,
   (notfound_classification fsNoRoot).2
      { kind := ErrKind.notFound
        msg := "No such file or directory (os error 2)" } rfl⟩

/-! ### Selection lemmas -/

/-- A Down key press with no modifiers. -/
def downPress : Event :=
  Event.Key { modifiers := KeyModifiers.NONE, code := KeyCode.Down } true

/-- An Up key press with no modifiers. -/
def upPress : Event :=
  Event.Key { modifiers := KeyModifiers.NONE, code := KeyCode.Up } true

/-- `App::new` always starts with the default `Sidebar` pane. -/
theorem app_new_pane (fs : Root) : (App.new fs).focused_pane = Pane.Sidebar := by
  unfold App.new
  split <;> rfl

/-- `App::new` always starts with the default list state (no selection). -/
theorem app_new_list_state (fs : Root) :
    (App.new fs).led_list_state = ListState.default := by
  unfold App.new
  split <;> rfl

/-- C8 counterexample: after the successful demo scan, the state the loop
starts from has no selected entry — the selection is `None`, not index 0 —
and the first render keeps it that way. -/
theorem loop_start_no_selection :
    (get_all_leds fsDemo).isOk = true ∧
    ({ App.new fsDemo with running := true } : App).led_list_state.selected
      ≠ some 0 ∧
    (({ App.new fsDemo with running := true } : App).render).led_list_state.selected
      ≠ some 0 := by
  refine ⟨rfl, ?_, ?_⟩ <;> decide

/-- C8 (amended): after a successful scan the loop starts with no entry
selected (also after rendering); the selection reaches the first entry
(index 0) on the first down key press. -/
theorem loop_start_selection (fs : Root) (leds : List LED)
    (_h : get_all_leds fs = .ok leds) :
    (App.new fs).led_list_state.selected = none ∧
    (({ App.new fs with running := true } : App).render).led_list_state.selected
      = none ∧
    ((({ App.new fs with running := true } : App).render).on_key_event
        { modifiers := KeyModifiers.NONE, code := KeyCode.Down
          }).led_list_state.selected
      = some 0 := by
  have h1 : (App.new fs).led_list_state.selected = none := by
    rw [app_new_list_state fs]
    rfl
  have h2 : (({ App.new fs with running := true } : App).render).led_list_state.selected
      = none := by
    show ((App.new fs).led_list_state.renderClamp
      (App.new fs).leds.length).selected = none
    rw [app_new_list_state fs]
    unfold ListState.renderClamp
    split
    · rfl
    · rfl
  have hp : (({ App.new fs with running := true } : App).render).focused_pane
      = Pane.Sidebar := app_new_pane fs
  refine ⟨h1, h2, ?_⟩
  rw [on_key_event_down _ KeyModifiers.NONE hp]
  unfold ListState.select_next
  rw [h2]

/-- C8 (amended) witness: on the demo filesystem, the first down press
selects index 0. -/
theorem loop_start_selection_witness :
    ((({ App.new fsDemo with running := true } : App).render).on_key_event
        { modifiers := KeyModifiers.NONE, code := KeyCode.Down
          }).led_list_state.selected
      = some 0 :=
  (loop_start_selection fsDemo
    [{ file_name := "alpha::on", name := "alpha on", is_on := true },
     { file_name := "beta::off", name := "beta off", is_on := false }]
    rfl).2.2

/-- Handling one event moves a defined selection by at most one step up
(and never makes it undefined). -/
theorem handle_event_selected_le (a : App) (e : Event) (i : Nat)
    (h : a.led_list_state.selected = some i) :
    ∃ j, (a.handle_event e).led_list_state.selected = some j ∧ j ≤ i + 1 := by
  cases e with
  | Key k p =>
    cases p
    · exact ⟨i, h, Nat.le_succ i⟩
    · show ∃ j, (a.on_key_event k).led_list_state.selected = some j ∧
        j ≤ i + 1
      unfold App.on_key_event
      split
      · exact ⟨i, h, Nat.le_succ i⟩
      split
      · refine ⟨i - 1, ?_, by omega⟩
        unfold ListState.select_previous
        rw [h]
      split
      · refine ⟨min (i + 1) USIZE_MAX, ?_, Nat.min_le_left _ _⟩
        unfold ListState.select_next
        rw [h]
      · exact ⟨i, h, Nat.le_succ i⟩
  | Mouse => exact ⟨i, h, Nat.le_succ i⟩
  | Resize => exact ⟨i, h, Nat.le_succ i⟩
  | otherEvent => exact ⟨i, h, Nat.le_succ i⟩

/-- Rendering a non-empty device list clamps a defined selection to the
last index. -/
theorem render_selected (a : App) (i : Nat) (hlen : 0 < a.leds.length)
    (h : a.led_list_state.selected = some i) :
    (a.render).led_list_state.selected = some (min i (a.leds.length - 1)) := by
  unfold App.render ListState.renderClamp
  rw [if_neg (by omega), h]
  rfl

/-- Through any run of the event loop, a defined selection stays defined
and never exceeds the device count. -/
theorem runLoop_selected_bound (es : List Event) : ∀ (a : App) (i : Nat),
    0 < a.leds.length → a.led_list_state.selected = some i →
    i ≤ a.leds.length →
    ∃ j, (App.runLoop a es).led_list_state.selected = some j ∧
      j ≤ (App.runLoop a es).leds.length := by
  induction es with
  | nil => intro a i _ h hle; exact ⟨i, h, hle⟩
  | cons e es ih =>
    intro a i hlen h hle
    unfold App.runLoop
    split
    · have hr := render_selected a i hlen h
      obtain ⟨j, hj, hjle⟩ := handle_event_selected_le (a.render) e
        (min i (a.leds.length - 1)) hr
      have hleds : ((a.render).handle_event e).leds = a.leds :=
        (handle_event_fields (a.render) e).1
      exact ih _ j (by rw [hleds]; exact hlen) hj (by rw [hleds]; omega)
    · exact ⟨i, h, hle⟩

/-- Pressing down `k` times from a defined selection advances the rendered
selection by `k`, saturating at the last index. -/
theorem runLoop_downs (k : Nat) : ∀ (a : App) (i : Nat),
    a.running = true → a.focused_pane = Pane.Sidebar →
    0 < a.leds.length → a.leds.length ≤ USIZE_MAX →
    a.led_list_state.selected = some i → i ≤ a.leds.length →
    ((App.runLoop a (List.replicate k downPress)).render).led_list_state.selected
      = some (min (min i (a.leds.length - 1) + k) (a.leds.length - 1)) := by
  induction k with
  | zero =>
    intro a i _ _ hlen _ h _
    rw [List.replicate_zero]
    rw [show App.runLoop a [] = a from rfl]
    rw [render_selected a i hlen h]
    congr 1
    omega
  | succ k ih =>
    intro a i hrun hpane hlen hmax h hle
    rw [List.replicate_succ]
    unfold App.runLoop
    rw [if_pos hrun]
    have hrsel := render_selected a i hlen h
    have hpane' : (a.render).focused_pane = Pane.Sidebar := hpane
    have hsel' : ((a.render).handle_event downPress).led_list_state.selected
        = some (min i (a.leds.length - 1) + 1) := by
      show ((a.render).on_key_event
        { modifiers := KeyModifiers.NONE
          code := KeyCode.Down }).led_list_state.selected = _
      rw [on_key_event_down (a.render) KeyModifiers.NONE hpane']
      unfold ListState.select_next
      rw [hrsel]
      show some (min (min i (a.leds.length - 1) + 1) USIZE_MAX) = _
      congr 1
      omega
    have hrun' : ((a.render).handle_event downPress).running = true := by
      show ((a.render).on_key_event
        { modifiers := KeyModifiers.NONE, code := KeyCode.Down }).running
        = true
      rw [on_key_event_running (a.render)
        { modifiers := KeyModifiers.NONE, code := KeyCode.Down } (by decide)]
      exact hrun
    have hpane'' : ((a.render).handle_event downPress).focused_pane
        = Pane.Sidebar := by
      rw [(handle_event_fields (a.render) downPress).2.2]
      exact hpane
    have hleds : ((a.render).handle_event downPress).leds = a.leds :=
      (handle_event_fields (a.render) downPress).1
    have hrec := ih ((a.render).handle_event downPress)
      (min i (a.leds.length - 1) + 1) hrun' hpane''
      (by rw [hleds]; exact hlen) (by rw [hleds]; exact hmax) hsel'
      (by rw [hleds]; omega)
    rw [hleds] at hrec
    rw [hrec]
    congr 1
    omega

/-- C7: with M > 0 devices and the selection at index 0 in a running state
with the sidebar focused, pressing down M-1 times and then once more
leaves the rendered selection at index M-1 — it saturates at the last
entry with no wraparound; pressing up at index 0 leaves it at 0; and after
any sequence of terminal events the rendered selection index stays within
[0, M-1]. -/
theorem navigation_saturates (app : App) (M : Nat) (events : List Event)
    (hM : app.leds.length = M) (hpos : 0 < M) (hmax : M ≤ USIZE_MAX)
    (hrun : app.running = true) (hpane : app.focused_pane = Pane.Sidebar)
    (hsel : app.led_list_state.selected = some 0) :
    ((App.runLoop app (List.replicate (M - 1)
        downPress)).render).led_list_state.selected = some (M - 1) ∧
    ((App.runLoop app (List.replicate M
        downPress)).render).led_list_state.selected = some (M - 1) ∧
    ((App.runLoop app [upPress]).render).led_list_state.selected = some 0 ∧
    (∀ j, ((App.runLoop app events).render).led_list_state.selected = some j
      → j < M) := by
  have hlen : 0 < app.leds.length := by omega
  have hle0 : 0 ≤ app.leds.length := Nat.zero_le _
  refine ⟨?_, ?_, ?_, ?_⟩
  · rw [runLoop_downs (M - 1) app 0 hrun hpane hlen (by omega) hsel hle0]
    congr 1
    omega
  · rw [runLoop_downs M app 0 hrun hpane hlen (by omega) hsel hle0]
    congr 1
    omega
  · show ((App.runLoop app (upPress :: [])).render).led_list_state.selected
      = some 0
    unfold App.runLoop
    rw [if_pos hrun]
    rw [show App.runLoop ((app.render).handle_event upPress) [] =
      (app.render).handle_event upPress from rfl]
    have hrsel := render_selected app 0 hlen hsel
    have hsel' : ((app.render).handle_event upPress).led_list_state.selected
        = some 0 := by
      show ((app.render).on_key_event
        { modifiers := KeyModifiers.NONE
          code := KeyCode.Up }).led_list_state.selected = _
      rw [on_key_event_up (app.render) KeyModifiers.NONE hpane]
      unfold ListState.select_previous
      rw [hrsel]
      show some (min 0 (app.leds.length - 1) - 1) = some 0
      congr 1
      omega
    have hleds : ((app.render).handle_event upPress).leds = app.leds :=
      (handle_event_fields (app.render) upPress).1
    rw [render_selected _ 0 (by rw [hleds]; exact hlen) hsel']
    rw [hleds]
    congr 1
    omega
  · intro j hj
    obtain ⟨j', hj', hle'⟩ := runLoop_selected_bound events app 0 hlen hsel
      hle0
    have hfield := (runLoop_fields events app).1
    have hlen2 : 0 < (App.runLoop app events).leds.length := by
      rw [hfield]
      exact hlen
    rw [render_selected (App.runLoop app events) j' hlen2 hj'] at hj
    injection hj with hj
    rw [hfield] at hj
    omega

/-- C7 witness: with two devices, two down presses land on index 1 (the
last entry) and an up press at index 0 stays at 0. -/
theorem navigation_saturates_witness :
    ((App.runLoop
      { running := true
        leds := [{ file_name := "alpha::on", name := "alpha on",
                   is_on := true },
                 { file_name := "beta::off", name := "beta off",
                   is_on := false }]
        log := ["Successfully found 2 LED(s)"]
        focused_pane := Pane.Sidebar
        led_list_state := { selected := some 0 } }
      (List.replicate 2 downPress)).render).led_list_state.selected
      = some 1 ∧
    ((App.runLoop
      { running := true
        leds := [{ file_name := "alpha::on", name := "alpha on",
                   is_on := true },
                 { file_name := "beta::off", name := "beta off",
                   is_on := false }]
        log := ["Successfully found 2 LED(s)"]
        focused_pane := Pane.Sidebar
        led_list_state := { selected := some 0 } }
      [upPress]).render).led_list_state.selected = some 0 := by
  have h := navigation_saturates
    { running := true
      leds := [{ file_name := "alpha::on", name := "alpha on",
                 is_on := true },
               { file_name := "beta::off", name := "beta off",
                 is_on := false }]
      log := ["Successfully found 2 LED(s)"]
      focused_pane := Pane.Sidebar
      led_list_state := { selected := some 0 } }
    2 [] rfl (by decide) (by decide) rfl rfl rfl
  exact ⟨h.2.1, h.2.2.1⟩

end Glimpse
